import Mathlib

/- Verification of the TireOps repository: four standalone Python scripts
(convert-modals.py, convert-to-modal.py, remove-inline-edit.py,
update-inventory-edit.py) that each rewrite one React/TypeScript file by
locating literal or regex-matched text fragments and splicing in
replacement text.

Python strings are modelled as `List Char` (written below as `String`
literals converted with `.toList`). In the string literals, the
characters `{`, `}`, `'`, backtick and `#` are written with `\xNN`
escapes; the decoded contents are byte-identical to the literals in the
Python sources. -/

namespace TireOps

set_option maxRecDepth 8000

/-- One element of a Python list of strings. Such an element is usually a
single physical line ending in a newline, but `list.insert` may insert a
multi-line string as one element, so no invariant is assumed. -/
abbrev Line := List Char

/-- Test that `pat` is a prefix of `s` (character lists). -/
def chStarts : List Char → List Char → Bool
  | [], _ => true
  | _ :: _, [] => false
  | a :: as, b :: bs => a == b && chStarts as bs

/-- Model of Python's substring test `pat in s`. -/
def chContains (s pat : List Char) : Bool :=
  match s with
  | [] => chStarts pat []
  | c :: t => chStarts pat (c :: t) || chContains t pat

def lbrace : Char := Char.ofNat 123

def rbrace : Char := Char.ofNat 125

def nlChar : Char := Char.ofNat 10

def crChar : Char := Char.ofNat 13

/-- Model of `line.count('{') - line.count('}')` from
remove-inline-edit.py line 25. -/
def braceDelta (l : Line) : Int := (l.count lbrace : Int) - (l.count rbrace : Int)

/-- Model of Python `f.readlines()`: split the decoded file content into
chunks, each chunk ending right after a newline character, with a final
newline-free chunk when the content does not end in a newline. -/
def splitAfterNl : List Char → List Line
  | [] => []
  | a :: t =>
    if a = nlChar then [a] :: splitAfterNl t
    else
      match splitAfterNl t with
      | [] => [[a]]
      | l :: ls => (a :: l) :: ls

/-- Model of Python `f.writelines(lines)`: the bytes written are the
concatenation of the elements. -/
def joinL (ls : List Line) : List Char := ls.flatten

/-- Python text-mode read with the default `newline=None` (universal
newlines), as in every `open(..., 'r', encoding='utf-8')` of these
scripts: each `\r\n` pair and each lone `\r` in the file bytes is
decoded to `\n`. -/
def decodeNewlines : List Char → List Char
  | [] => []
  | [c] => if c = crChar then [nlChar] else [c]
  | c :: c2 :: t2 =>
    if c = crChar then
      if c2 = nlChar then nlChar :: decodeNewlines t2
      else nlChar :: decodeNewlines (c2 :: t2)
    else c :: decodeNewlines (c2 :: t2)

/-- Python text-mode write with the default `newline=None`: every `\n`
of the written text becomes `os.linesep` in the file bytes. The scripts
hard-code `D:/` paths, so the platform they target has
`os.linesep = "\r\n"`. -/
def encodeNewlinesCRLF : List Char → List Char
  | [] => []
  | c :: t =>
    if c = nlChar then crChar :: nlChar :: encodeNewlinesCRLF t
    else c :: encodeNewlinesCRLF t

/-- Model of the Python idiom
`for i, line in enumerate(lines): if p(line): ...; break` —
the index of the first matching element, if any. -/
def findFirst (p : Line → Bool) : List Line → Option Nat
  | [] => none
  | l :: t => if p l then some 0 else (findFirst p t).map (· + 1)

/-- Model of Python `lines.insert(i, x)`. -/
def insertAt (i : Nat) (x : Line) (ls : List Line) : List Line :=
  ls.take i ++ [x] ++ ls.drop i

/-- Python truthiness of an optional line index (`if form_start:` in
convert-modals.py line 58, `if edit_start and edit_end:` in
remove-inline-edit.py line 34): `None` and the integer `0` are falsy,
every other integer is truthy. -/
def pyTruthy : Option Nat → Bool
  | none => false
  | some n => n != 0

/-- Python slice index normalisation: a negative index counts from the
end of the list and indices are clamped into range. -/
def pyClampIdx (len : Nat) (i : Int) : Nat :=
  if i < 0 then ((len : Int) + i).toNat else min i.toNat len

/-- Model of Python `del lines[a:b]` for a non-negative `a` and an
arbitrary (possibly negative) `b`, as in remove-inline-edit.py line 49. -/
def pyDelSlice (lines : List Line) (a : Nat) (b : Int) : List Line :=
  let a2 := min a lines.length
  let b2 := pyClampIdx lines.length b
  lines.take a2 ++ lines.drop (max a2 b2)

/-- The patch applier `lines[s:e] = repl` (slice assignment with
`s ≤ e ≤ lines.length`, the shape used by convert-modals.py line 229). -/
def applyPatch (b : List Line) (s e : Nat) (r : List Line) : List Line :=
  b.take s ++ r ++ b.drop e

/-- Worker for `replaceAll`, structurally recursive on a fuel bound.
Each step consumes at least one character of `s` (the pattern being
nonempty), so fuel `s.length` is always enough. -/
def replaceAllFuel (pat repl : List Char) : Nat → List Char → List Char
  | 0, s => s
  | _, [] => []
  | fuel + 1, c :: t =>
    if 0 < pat.length ∧ chStarts pat (c :: t) = true then
      repl ++ replaceAllFuel pat repl fuel ((c :: t).drop pat.length)
    else c :: replaceAllFuel pat repl fuel t

/-- Model of Python `content.replace(old, new)`: replace all
non-overlapping occurrences, left to right, for a nonempty `old`
(every pattern in the sources is nonempty). -/
def replaceAll (pat repl s : List Char) : List Char :=
  replaceAllFuel pat repl s.length s

/-- Model of Python `re.sub(lit, grp + repl, s, count=1)` where the
pattern is one literal group: replace only the leftmost occurrence
(convert-to-modal.py line 29). -/
def replaceFirst (pat repl : List Char) : List Char → List Char
  | [] => if chStarts pat [] = true then repl else []
  | c :: t =>
    if chStarts pat (c :: t) = true then repl ++ (c :: t).drop pat.length
    else c :: replaceFirst pat repl t

/-- The least offset `k` at which the literal chunk `p2` matches inside
`t` — how a lazy `.*?` gap expands under `re.DOTALL`. -/
def lazyGapLen (p2 : List Char) : List Char → Option Nat
  | [] => if chStarts p2 [] = true then some 0 else none
  | c :: t2 =>
    if chStarts p2 (c :: t2) = true then some 0
    else (lazyGapLen p2 t2).map (· + 1)

/-- Worker for `subLazyAll`, structurally recursive on a fuel bound
(each step consumes at least one character of `s`, so fuel `s.length`
is always enough). -/
def subLazyAllFuel (p1 p2 repl : List Char) : Nat → List Char → List Char
  | 0, s => s
  | _, [] => []
  | fuel + 1, c :: t =>
    if 0 < p1.length ∧ chStarts p1 (c :: t) = true then
      match lazyGapLen p2 ((c :: t).drop p1.length) with
      | some k =>
          repl ++ subLazyAllFuel p1 p2 repl fuel (((c :: t).drop p1.length).drop (k + p2.length))
      | none => c :: subLazyAllFuel p1 p2 repl fuel t
    else c :: subLazyAllFuel p1 p2 repl fuel t

/-- Model of Python `re.sub(P1 + ".*?" + P2, repl, s, flags=re.DOTALL)`
for literal chunks `P1`, `P2` with `P1` nonempty: leftmost match,
shortest (lazy) gap, all occurrences, scanning resumes after each
replaced match (convert-to-modal.py line 151). -/
def subLazyAll (p1 p2 repl s : List Char) : List Char :=
  subLazyAllFuel p1 p2 repl s.length s
def invPath : String := "D:/Tire-Shop-MVP/src/app/inventory/page.tsx"
def imp1old : String := "import \x7b useEffect, useState, Suspense \x7d from \x27react\x27;"
def imp1new : String := "import \x7b useEffect, useState, Suspense, useRef \x7d from \x27react\x27;\n"
def imp2old : String := "import \x7b motion \x7d from \x27framer-motion\x27;"
def imp2new : String := "import \x7b motion, AnimatePresence \x7d from \x27framer-motion\x27;\n"
def imp3old : String := "import \x7b Package, Plus, Search, Download, Trash2, Edit, Check, Loader2 \x7d from \x27lucide-react\x27;"
def imp3new : String := "import \x7b Package, Plus, Search, Download, Trash2, Edit, Check, Loader2, X \x7d from \x27lucide-react\x27;\n"
def supaAnchor : String := "  const supabase = createClient();"
def modalRefStr : String := "  const modalRef = useRef<HTMLDivElement>(null);\n\n"
def invDepAnchor : String := "  \x7d, [searchTerm, stockFilter, inventory]);"
def scrollLock : String := "\n  useEffect(() => \x7b\n    if (showForm) \x7b\n      document.body.style.overflow = \x27hidden\x27;\n    \x7d else \x7b\n      document.body.style.overflow = \x27\x27;\n    \x7d\n    return () => \x7b\n      document.body.style.overflow = \x27\x27;\n    \x7d;\n  \x7d, [showForm]);\n"
def formMarker : String := "        \x7b/* Form */\x7d"
def endMarker : String := "        )\x7d"
def invModalForm : String := "        \x7b/* Form Modal */\x7d\n        \x7bshowForm && (\n          <AnimatePresence>\n            <motion.div\n              initial=\x7b\x7b opacity: 0 \x7d\x7d\n              animate=\x7b\x7b opacity: 1 \x7d\x7d\n              exit=\x7b\x7b opacity: 0 \x7d\x7d\n              className=\"fixed inset-0 bg-black/60 backdrop-blur-sm z-50\"\n              onClick=\x7b() => setShowForm(false)\x7d\n              aria-hidden=\"true\"\n            />\n\n            <div\n              className=\"fixed inset-0 overflow-y-auto pointer-events-none z-50\"\n              style=\x7b\x7b overscrollBehavior: \x27contain\x27 \x7d\x7d\n            >\n              <div className=\"min-h-full flex items-center justify-center p-6 pointer-events-none\">\n                <div\n                  ref=\x7bmodalRef\x7d\n                  role=\"dialog\"\n                  aria-modal=\"true\"\n                  aria-labelledby=\"modal-title\"\n                  tabIndex=\x7b-1\x7d\n                  className=\"pointer-events-auto w-[90vw] max-w-[1200px]\"\n                  style=\x7b\x7b overflow: \x27visible\x27 \x7d\x7d\n                  onClick=\x7b(e) => e.stopPropagation()\x7d\n                  onKeyDown=\x7b(e) => \x7b\n                    if (e.key === \x27Escape\x27) \x7b\n                      setShowForm(false);\n                    \x7d\n                  \x7d\x7d\n                >\n                  <motion.div\n                    initial=\x7b\x7b opacity: 0, scale: 0.95 \x7d\x7d\n                    animate=\x7b\x7b opacity: 1, scale: 1 \x7d\x7d\n                    exit=\x7b\x7b opacity: 0, scale: 0.95 \x7d\x7d\n                    className=\"bg-gray-50 dark:bg-gray-900 rounded-2xl shadow-2xl\"\n                    style=\x7b\x7b maxHeight: \x2790vh\x27, padding: \x2724px\x27, overflow: \x27visible\x27 \x7d\x7d\n                  >\n                    \x7b/* Header with X button */\x7d\n                    <div className=\"flex items-center justify-between mb-6 pb-6 border-b border-gray-200 dark:border-gray-800\">\n                      <h2 id=\"modal-title\" className=\"text-2xl font-semibold text-gray-900 dark:text-white\">\n                        Add New Tire\n                      </h2>\n                      <button\n                        type=\"button\"\n                        onClick=\x7b() => setShowForm(false)\x7d\n                        className=\"p-2 hover:bg-gray-200 dark:hover:bg-gray-800 rounded-lg transition-colors\"\n                      >\n                        <X size=\x7b20\x7d className=\"text-gray-500 dark:text-gray-400\" />\n                      </button>\n                    </div>\n\n                    \x7b/* Form with scrollable content */\x7d\n                    <form onSubmit=\x7bhandleSubmit\x7d className=\"flex flex-col\" style=\x7b\x7b maxHeight: \x27calc(90vh - 180px)\x27 \x7d\x7d>\n                      <div className=\"overflow-y-auto flex-1 pr-2 -mr-2\">\n                        <div className=\"grid grid-cols-1 sm:grid-cols-2 gap-4\">\n                          <div>\n                            <label className=\"block text-xs font-medium text-gray-600 dark:text-gray-400 mb-2 uppercase tracking-wide\">\n                              Brand *\n                            </label>\n                            <input\n                              type=\"text\"\n                              required\n                              value=\x7bformData.brand\x7d\n                              onChange=\x7b(e) =>\n                                setFormData(\x7b ...formData, brand: e.target.value \x7d)\n                              \x7d\n                              className=\"w-full h-11 px-3 rounded-lg border-gray-300 dark:border-gray-700 bg-white dark:bg-gray-800 text-gray-900 dark:text-white text-xs focus:outline-none focus:ring-2 focus:ring-blue-500 focus:border-transparent\"\n                            />\n                          </div>\n                          <div>\n                            <label className=\"block text-xs font-medium text-gray-600 dark:text-gray-400 mb-2 uppercase tracking-wide\">\n                              Model *\n                            </label>\n                            <input\n                              type=\"text\"\n                              required\n                              value=\x7bformData.model\x7d\n                              onChange=\x7b(e) =>\n                                setFormData(\x7b ...formData, model: e.target.value \x7d)\n                              \x7d\n                              className=\"w-full h-11 px-3 rounded-lg border-gray-300 dark:border-gray-700 bg-white dark:bg-gray-800 text-gray-900 dark:text-white text-xs focus:outline-none focus:ring-2 focus:ring-blue-500 focus:border-transparent\"\n                            />\n                          </div>\n                          <div>\n                            <label className=\"block text-xs font-medium text-gray-600 dark:text-gray-400 mb-2 uppercase tracking-wide\">\n                              Size *\n                            </label>\n                            <input\n                              type=\"text\"\n                              required\n                              placeholder=\"e.g., 225/45R17\"\n                              value=\x7bformData.size\x7d\n                              onChange=\x7b(e) =>\n                                setFormData(\x7b ...formData, size: e.target.value \x7d)\n                              \x7d\n                              className=\"w-full h-11 px-3 rounded-lg border-gray-300 dark:border-gray-700 bg-white dark:bg-gray-800 text-gray-900 dark:text-white text-xs focus:outline-none focus:ring-2 focus:ring-blue-500 focus:border-transparent\"\n                            />\n                          </div>\n                          <div>\n                            <label className=\"block text-xs font-medium text-gray-600 dark:text-gray-400 mb-2 uppercase tracking-wide\">\n                              Quantity *\n                            </label>\n                            <Stepper\n                              value=\x7bformData.quantity\x7d\n                              onChange=\x7b(value) => setFormData(\x7b ...formData, quantity: value \x7d)\x7d\n                              min=\x7b0\x7d\n                              className=\"justify-start\"\n                            />\n                          </div>\n                          <div>\n                            <label className=\"block text-xs font-medium text-gray-600 dark:text-gray-400 mb-2 uppercase tracking-wide\">\n                              Price *\n                            </label>\n                            <input\n                              type=\"number\"\n                              required\n                              min=\"0\"\n                              step=\"0.01\"\n                              value=\x7bformData.price\x7d\n                              onChange=\x7b(e) =>\n                                setFormData(\x7b ...formData, price: parseFloat(e.target.value) \x7d)\n                              \x7d\n                              className=\"w-full h-11 px-3 rounded-lg border-gray-300 dark:border-gray-700 bg-white dark:bg-gray-800 text-gray-900 dark:text-white text-xs focus:outline-none focus:ring-2 focus:ring-blue-500 focus:border-transparent\"\n                            />\n                          </div>\n                          <div className=\"col-span-1 sm:col-span-2\">\n                            <label className=\"block text-xs font-medium text-gray-600 dark:text-gray-400 mb-2 uppercase tracking-wide\">\n                              Description\n                            </label>\n                            <textarea\n                              value=\x7bformData.description\x7d\n                              onChange=\x7b(e) =>\n                                setFormData(\x7b ...formData, description: e.target.value \x7d)\n                              \x7d\n                              className=\"w-full h-24 px-3 py-2 rounded-lg border border-gray-300 dark:border-gray-700 bg-white dark:bg-gray-800 text-gray-900 dark:text-white text-xs focus:outline-none focus:ring-2 focus:ring-blue-500 focus:border-transparent resize-none\"\n                              rows=\x7b3\x7d\n                            />\n                          </div>\n                        </div>\n                      </div>\n\n                      \x7b/* Fixed Button Row at Bottom */\x7d\n                      <div className=\"flex gap-3 justify-end mt-6 pt-6 border-t border-gray-200 dark:border-gray-800\">\n                        <button\n                          type=\"button\"\n                          onClick=\x7b() => setShowForm(false)\x7d\n                          className=\"px-6 py-2.5 rounded-lg border border-gray-300 dark:border-gray-700 bg-white dark:bg-gray-800 text-gray-700 dark:text-gray-300 hover:bg-gray-50 dark:hover:bg-gray-750 transition-all text-sm font-medium\"\n                        >\n                          Cancel\n                        </button>\n                        <button\n                          type=\"submit\"\n                          className=\"px-6 py-2.5 rounded-lg bg-blue-600 hover:bg-blue-700 text-white transition-all text-sm font-medium shadow-sm hover:shadow-md\"\n                        >\n                          Add Tire\n                        </button>\n                      </div>\n                    </form>\n                  </motion.div>\n                </div>\n              </div>\n            </div>\n          </AnimatePresence>\n        )\x7d\n\n"
def custModalForm : String := "        \x7b/* Form Modal */\x7d\n        \x7bshowForm && (\n          <AnimatePresence>\n            <motion.div\n              initial=\x7b\x7b opacity: 0 \x7d\x7d\n              animate=\x7b\x7b opacity: 1 \x7d\x7d\n              exit=\x7b\x7b opacity: 0 \x7d\x7d\n              className=\"fixed inset-0 bg-black/60 backdrop-blur-sm z-50\"\n              onClick=\x7b() => setShowForm(false)\x7d\n              aria-hidden=\"true\"\n            />\n\n            <div\n              className=\"fixed inset-0 overflow-y-auto pointer-events-none z-50\"\n              style=\x7b\x7b overscrollBehavior: \x27contain\x27 \x7d\x7d\n            >\n              <div className=\"min-h-full flex items-center justify-center p-6 pointer-events-none\">\n                <div\n                  ref=\x7bmodalRef\x7d\n                  role=\"dialog\"\n                  aria-modal=\"true\"\n                  aria-labelledby=\"modal-title\"\n                  tabIndex=\x7b-1\x7d\n                  className=\"pointer-events-auto w-[90vw] max-w-[1200px]\"\n                  style=\x7b\x7b overflow: \x27visible\x27 \x7d\x7d\n                  onClick=\x7b(e) => e.stopPropagation()\x7d\n                  onKeyDown=\x7b(e) => \x7b\n                    if (e.key === \x27Escape\x27) \x7b\n                      setShowForm(false);\n                    \x7d\n                  \x7d\x7d\n                >\n                  <motion.div\n                    initial=\x7b\x7b opacity: 0, scale: 0.95 \x7d\x7d\n                    animate=\x7b\x7b opacity: 1, scale: 1 \x7d\x7d\n                    exit=\x7b\x7b opacity: 0, scale: 0.95 \x7d\x7d\n                    className=\"bg-gray-50 dark:bg-gray-900 rounded-2xl shadow-2xl\"\n                    style=\x7b\x7b maxHeight: \x2790vh\x27, padding: \x2724px\x27, overflow: \x27visible\x27 \x7d\x7d\n                  >\n                    \x7b/* Header with X button */\x7d\n                    <div className=\"flex items-center justify-between mb-6 pb-6 border-b border-gray-200 dark:border-gray-800\">\n                      <h2 id=\"modal-title\" className=\"text-2xl font-semibold text-gray-900 dark:text-white\">\n                        \x7beditingId ? \x27Edit Customer\x27 : \x27Add New Customer\x27\x7d\n                      </h2>\n                      <button\n                        type=\"button\"\n                        onClick=\x7b() => setShowForm(false)\x7d\n                        className=\"p-2 hover:bg-gray-200 dark:hover:bg-gray-800 rounded-lg transition-colors\"\n                      >\n                        <X size=\x7b20\x7d className=\"text-gray-500 dark:text-gray-400\" />\n                      </button>\n                    </div>\n\n                    \x7b/* Form with scrollable content */\x7d\n                    <form onSubmit=\x7bhandleSubmit\x7d className=\"flex flex-col\" style=\x7b\x7b maxHeight: \x27calc(90vh - 180px)\x27 \x7d\x7d>\n                      <div className=\"overflow-y-auto flex-1 pr-2 -mr-2\">\n                        <div className=\"grid grid-cols-1 sm:grid-cols-2 gap-4\">\n                          <div>\n                            <label className=\"block text-xs font-medium text-gray-600 dark:text-gray-400 mb-2 uppercase tracking-wide\">\n                              Name *\n                            </label>\n                            <input\n                              type=\"text\"\n                              required\n                              value=\x7bformData.name\x7d\n                              onChange=\x7b(e) => setFormData(\x7b ...formData, name: e.target.value \x7d)\x7d\n                              className=\"w-full h-11 px-3 rounded-lg border-gray-300 dark:border-gray-700 bg-white dark:bg-gray-800 text-gray-900 dark:text-white text-xs focus:outline-none focus:ring-2 focus:ring-blue-500 focus:border-transparent\"\n                            />\n                          </div>\n                          <div>\n                            <label className=\"block text-xs font-medium text-gray-600 dark:text-gray-400 mb-2 uppercase tracking-wide\">\n                              Phone *\n                            </label>\n                            <input\n                              type=\"tel\"\n                              required\n                              value=\x7bformData.phone\x7d\n                              onChange=\x7b(e) => setFormData(\x7b ...formData, phone: e.target.value \x7d)\x7d\n                              className=\"w-full h-11 px-3 rounded-lg border-gray-300 dark:border-gray-700 bg-white dark:bg-gray-800 text-gray-900 dark:text-white text-xs focus:outline-none focus:ring-2 focus:ring-blue-500 focus:border-transparent\"\n                            />\n                          </div>\n                          <div>\n                            <label className=\"block text-xs font-medium text-gray-600 dark:text-gray-400 mb-2 uppercase tracking-wide\">\n                              Email\n                            </label>\n                            <input\n                              type=\"email\"\n                              value=\x7bformData.email\x7d\n                              onChange=\x7b(e) => setFormData(\x7b ...formData, email: e.target.value \x7d)\x7d\n                              className=\"w-full h-11 px-3 rounded-lg border-gray-300 dark:border-gray-700 bg-white dark:bg-gray-800 text-gray-900 dark:text-white text-xs focus:outline-none focus:ring-2 focus:ring-blue-500 focus:border-transparent\"\n                            />\n                          </div>\n                          <div>\n                            <label className=\"block text-xs font-medium text-gray-600 dark:text-gray-400 mb-2 uppercase tracking-wide\">\n                              Address\n                            </label>\n                            <input\n                              type=\"text\"\n                              value=\x7bformData.address\x7d\n                              onChange=\x7b(e) => setFormData(\x7b ...formData, address: e.target.value \x7d)\x7d\n                              className=\"w-full h-11 px-3 rounded-lg border-gray-300 dark:border-gray-700 bg-white dark:bg-gray-800 text-gray-900 dark:text-white text-xs focus:outline-none focus:ring-2 focus:ring-blue-500 focus:border-transparent\"\n                            />\n                          </div>\n                        </div>\n                      </div>\n\n                      \x7b/* Fixed Button Row at Bottom */\x7d\n                      <div className=\"flex gap-3 justify-end mt-6 pt-6 border-t border-gray-200 dark:border-gray-800\">\n                        <button\n                          type=\"button\"\n                          onClick=\x7b() => setShowForm(false)\x7d\n                          className=\"px-6 py-2.5 rounded-lg border border-gray-300 dark:border-gray-700 bg-white dark:bg-gray-800 text-gray-700 dark:text-gray-300 hover:bg-gray-50 dark:hover:bg-gray-750 transition-all text-sm font-medium\"\n                        >\n                          Cancel\n                        </button>\n                        <button\n                          type=\"submit\"\n                          className=\"px-6 py-2.5 rounded-lg bg-blue-600 hover:bg-blue-700 text-white transition-all text-sm font-medium shadow-sm hover:shadow-md\"\n                        >\n                          \x7beditingId ? \x27Update Customer\x27 : \x27Add Customer\x27\x7d\n                        </button>\n                      </div>\n                    </form>\n                  </motion.div>\n                </div>\n              </div>\n            </div>\n          </AnimatePresence>\n        )\x7d\n\n"
def invOkMsg : String := "[OK] Inventory page converted to modal overlay"
def custPath : String := "D:/Tire-Shop-MVP/src/app/customers/page.tsx"
def cimp3old : String := "import \x7b Users, Plus, Search, Edit, Eye, Trash2 \x7d from \x27lucide-react\x27;"
def cimp3new : String := "import \x7b Users, Plus, Search, Edit, Eye, Trash2, X \x7d from \x27lucide-react\x27;\n"
def custDepAnchor : String := "  \x7d, [searchTerm, customers]);"
def custOkMsg : String := "[OK] Customers page converted to modal overlay"
def allOkMsg : String := "\n[OK] All pages successfully converted to modal overlays!"
def editAnchor : String := "\x7beditingTireId === tire.id ? ("
def elseMarker : String := ") : ("
def rvMarker : String := "/* Regular View */"
def remMsg : String := "[OK] Inline edit form removed from inventory page"
def u1old : String := "  function startEditingTire(tire: Tire) \x7b\n    setEditingTireId(tire.id);\n    setFormData(\x7b\n      brand: tire.brand,\n      model: tire.model,\n      size: tire.size,\n      quantity: tire.quantity,\n      price: tire.price,\n      description: tire.description || \x27\x27,\n    \x7d);\n  \x7d"
def u1new : String := "  function startEditingTire(tire: Tire) \x7b\n    setEditingTireId(tire.id);\n    setFormData(\x7b\n      brand: tire.brand,\n      model: tire.model,\n      size: tire.size,\n      quantity: tire.quantity,\n      price: tire.price,\n      description: tire.description || \x27\x27,\n    \x7d);\n    setShowForm(true);\n  \x7d"
def u2old : String := "  function cancelEditingTire() \x7b\n    setEditingTireId(null);\n    setFormData(\x7b\n      brand: \x27\x27,\n      model: \x27\x27,\n      size: \x27\x27,\n      quantity: 0,\n      price: 0,\n      description: \x27\x27,\n    \x7d);\n  \x7d"
def u2new : String := "  function cancelEditingTire() \x7b\n    setEditingTireId(null);\n    setShowForm(false);\n    setFormData(\x7b\n      brand: \x27\x27,\n      model: \x27\x27,\n      size: \x27\x27,\n      quantity: 0,\n      price: 0,\n      description: \x27\x27,\n    \x7d);\n  \x7d"
def u3old : String := "      setEditingTireId(null);\n      setFormData(\x7b\n        brand: \x27\x27,\n        model: \x27\x27,\n        size: \x27\x27,\n        quantity: 0,\n        price: 0,\n        description: \x27\x27,\n      \x7d);\n      loadInventory();"
def u3new : String := "      setEditingTireId(null);\n      setShowForm(false);\n      setFormData(\x7b\n        brand: \x27\x27,\n        model: \x27\x27,\n        size: \x27\x27,\n        quantity: 0,\n        price: 0,\n        description: \x27\x27,\n      \x7d);\n      loadInventory();"
def u4old : String := "  async function handleSubmit(e: React.FormEvent) \x7b\n    e.preventDefault();\n    try \x7b\n      const \x7b error \x7d = await supabase.from(\x27inventory\x27).insert([formData]);\n\n      if (error) throw error;\n\n      setFormData(\x7b\n        brand: \x27\x27,\n        model: \x27\x27,\n        size: \x27\x27,\n        quantity: 0,\n        price: 0,\n        description: \x27\x27,\n      \x7d);\n      setShowForm(false);\n      loadInventory();\n    \x7d catch (error) \x7b\n      console.error(\x27Error adding tire:\x27, error);\n      alert(\x27Error adding tire\x27);\n    \x7d\n  \x7d"
def u4new : String := "  async function handleSubmit(e: React.FormEvent) \x7b\n    e.preventDefault();\n    try \x7b\n      if (editingTireId) \x7b\n        const \x7b error \x7d = await supabase\n          .from(\x27inventory\x27)\n          .update(formData)\n          .eq(\x27id\x27, editingTireId);\n        if (error) throw error;\n      \x7d else \x7b\n        const \x7b error \x7d = await supabase.from(\x27inventory\x27).insert([formData]);\n        if (error) throw error;\n      \x7d\n\n      setEditingTireId(null);\n      setFormData(\x7b\n        brand: \x27\x27,\n        model: \x27\x27,\n        size: \x27\x27,\n        quantity: 0,\n        price: 0,\n        description: \x27\x27,\n      \x7d);\n      setShowForm(false);\n      loadInventory();\n    \x7d catch (error) \x7b\n      console.error(\x60Error $\x7beditingTireId ? \x27updating\x27 : \x27adding\x27\x7d tire:\x60, error);\n      alert(\x60Error $\x7beditingTireId ? \x27updating\x27 : \x27adding\x27\x7d tire\x60);\n    \x7d\n  \x7d"
def u5old : String := "                      <h2 id=\"modal-title\" className=\"text-2xl font-semibold text-gray-900 dark:text-white\">\n                        Add New Tire\n                      </h2>"
def u5new : String := "                      <h2 id=\"modal-title\" className=\"text-2xl font-semibold text-gray-900 dark:text-white\">\n                        \x7beditingTireId ? \x27Edit Tire\x27 : \x27Add New Tire\x27\x7d\n                      </h2>"
def u6old : String := "                        >\n                          Add Tire\n                        </button>"
def u6new : String := "                        >\n                          \x7beditingTireId ? \x27Update Tire\x27 : \x27Add Tire\x27\x7d\n                        </button>"
def u7old : String := "                        <button\n                          type=\"button\"\n                          onClick=\x7b() => setShowForm(false)\x7d\n                          className=\"px-6 py-2.5 rounded-lg border border-gray-300 dark:border-gray-700 bg-white dark:bg-gray-800 text-gray-700 dark:text-gray-300 hover:bg-gray-50 dark:hover:bg-gray-750 transition-all text-sm font-medium\"\n                        >\n                          Cancel\n                        </button>"
def u7new : String := "                        <button\n                          type=\"button\"\n                          onClick=\x7b() => \x7b\n                            setShowForm(false);\n                            setEditingTireId(null);\n                            setFormData(\x7b\n                              brand: \x27\x27,\n                              model: \x27\x27,\n                              size: \x27\x27,\n                              quantity: 0,\n                              price: 0,\n                              description: \x27\x27,\n                            \x7d);\n                          \x7d\x7d\n                          className=\"px-6 py-2.5 rounded-lg border border-gray-300 dark:border-gray-700 bg-white dark:bg-gray-800 text-gray-700 dark:text-gray-300 hover:bg-gray-50 dark:hover:bg-gray-750 transition-all text-sm font-medium\"\n                        >\n                          Cancel\n                        </button>"
def u8old : String := "              className=\"fixed inset-0 bg-black/60 backdrop-blur-sm z-50\"\n              onClick=\x7b() => setShowForm(false)\x7d\n              aria-hidden=\"true\""
def u8new : String := "              className=\"fixed inset-0 bg-black/60 backdrop-blur-sm z-50\"\n              onClick=\x7b() => \x7b\n                setShowForm(false);\n                setEditingTireId(null);\n              \x7d\x7d\n              aria-hidden=\"true\""
def u9old : String := "                      <button\n                        type=\"button\"\n                        onClick=\x7b() => setShowForm(false)\x7d\n                        className=\"p-2 hover:bg-gray-200 dark:hover:bg-gray-800 rounded-lg transition-colors\"\n                      >\n                        <X size=\x7b20\x7d className=\"text-gray-500 dark:text-gray-400\" />\n                      </button>"
def u9new : String := "                      <button\n                        type=\"button\"\n                        onClick=\x7b() => \x7b\n                          setShowForm(false);\n                          setEditingTireId(null);\n                        \x7d\x7d\n                        className=\"p-2 hover:bg-gray-200 dark:hover:bg-gray-800 rounded-lg transition-colors\"\n                      >\n                        <X size=\x7b20\x7d className=\"text-gray-500 dark:text-gray-400\" />\n                      </button>"
def u10old : String := "                  onKeyDown=\x7b(e) => \x7b\n                    if (e.key === \x27Escape\x27) \x7b\n                      setShowForm(false);\n                    \x7d\n                  \x7d\x7d"
def u10new : String := "                  onKeyDown=\x7b(e) => \x7b\n                    if (e.key === \x27Escape\x27) \x7b\n                      setShowForm(false);\n                      setEditingTireId(null);\n                    \x7d\n                  \x7d\x7d"
def updMsg : String := "[OK] Inventory page updated to use modal for editing"
def c2mPat : String := "  \x7d, [searchTerm, stockFilter, inventory];"
def oldFormLit : String := "        \x7b/* Form */\x7d\n        \x7bshowForm && (\n          <motion.div\n            initial=\x7b\x7b opacity: 0, y: -20 \x7d\x7d\n            animate=\x7b\x7b opacity: 1, y: 0 \x7d\x7d\n            className=\"bg-gray-50 dark:bg-gray-900 rounded-2xl border border-gray-200 dark:border-gray-700 shadow-lg\"\n            style=\x7b\x7b padding: \x2724px\x27 \x7d\x7d\n          >\n            <h2 className=\"text-xl font-semibold text-gray-900 dark:text-white mb-6\">Add New Tire</h2>"
def newForm : String := "        \x7b/* Form Modal */\x7d\n        \x7bshowForm && (\n          <AnimatePresence>\n            <motion.div\n              initial=\x7b\x7b opacity: 0 \x7d\x7d\n              animate=\x7b\x7b opacity: 1 \x7d\x7d\n              exit=\x7b\x7b opacity: 0 \x7d\x7d\n              className=\"fixed inset-0 bg-black/60 backdrop-blur-sm z-50\"\n              onClick=\x7b() => setShowForm(false)\x7d\n              aria-hidden=\"true\"\n            />\n\n            <div\n              className=\"fixed inset-0 overflow-y-auto pointer-events-none z-50\"\n              style=\x7b\x7b overscrollBehavior: \x27contain\x27 \x7d\x7d\n            >\n              <div className=\"min-h-full flex items-center justify-center p-6 pointer-events-none\">\n                <div\n                  ref=\x7bmodalRef\x7d\n                  role=\"dialog\"\n                  aria-modal=\"true\"\n                  aria-labelledby=\"modal-title\"\n                  tabIndex=\x7b-1\x7d\n                  className=\"pointer-events-auto w-[90vw] max-w-[1200px]\"\n                  style=\x7b\x7b overflow: \x27visible\x27 \x7d\x7d\n                  onClick=\x7b(e) => e.stopPropagation()\x7d\n                  onKeyDown=\x7b(e) => \x7b\n                    if (e.key === \x27Escape\x27) \x7b\n                      setShowForm(false);\n                    \x7d\n                  \x7d\x7d\n                >\n                  <motion.div\n                    initial=\x7b\x7b opacity: 0, scale: 0.95 \x7d\x7d\n                    animate=\x7b\x7b opacity: 1, scale: 1 \x7d\x7d\n                    exit=\x7b\x7b opacity: 0, scale: 0.95 \x7d\x7d\n                    className=\"bg-gray-50 dark:bg-gray-900 rounded-2xl shadow-2xl\"\n                    style=\x7b\x7b maxHeight: \x2790vh\x27, padding: \x2724px\x27, overflow: \x27visible\x27 \x7d\x7d\n                  >\n                    \x7b/* Header with X button */\x7d\n                    <div className=\"flex items-center justify-between mb-6 pb-6 border-b border-gray-200 dark:border-gray-800\">\n                      <h2 id=\"modal-title\" className=\"text-2xl font-semibold text-gray-900 dark:text-white\">\n                        Add New Tire\n                      </h2>\n                      <button\n                        type=\"button\"\n                        onClick=\x7b() => setShowForm(false)\x7d\n                        className=\"p-2 hover:bg-gray-200 dark:hover:bg-gray-800 rounded-lg transition-colors\"\n                      >\n                        <X size=\x7b20\x7d className=\"text-gray-500 dark:text-gray-400\" />\n                      </button>\n                    </div>"
def oldFormTagLit : String := "            <form onSubmit=\x7bhandleSubmit\x7d className=\"space-y-6\">"
def newFormTag : String := "                    \x7b/* Form with scrollable content */\x7d\n                    <form onSubmit=\x7bhandleSubmit\x7d className=\"flex flex-col\" style=\x7b\x7b maxHeight: \x27calc(90vh - 180px)\x27 \x7d\x7d>\n                      <div className=\"overflow-y-auto flex-1 pr-2 -mr-2\">"
def btnP1 : String := "              <div className=\"flex flex-col sm:flex-row gap-3 pt-4 border-t border-gray-200 dark:border-gray-800\">\n                <button\n                  type=\"button\"\n                  onClick=\x7b"
def btnP2 : String := "\x7d\n                  className=\"sm:flex-1 h-11 px-4 rounded-lg border border-gray-300 dark:border-gray-700 bg-white dark:bg-gray-800 text-gray-700 dark:text-gray-300 text-sm font-medium hover:bg-gray-100 dark:hover:bg-gray-750 transition-colors\"\n                >\n                  Cancel\n                </button>\n                <button\n                  type=\"submit\"\n                  className=\"sm:flex-1 h-11 px-4 rounded-lg bg-blue-600 hover:bg-blue-700 text-white text-sm font-semibold transition-colors shadow-sm hover:shadow-md\"\n                >\n                  Add Tire\n                </button>\n              </div>\n            </form>\n          </motion.div>\n        )\x7d"
def newButtons : String := "                      </div>\n\n                      \x7b/* Fixed Button Row at Bottom */\x7d\n                      <div className=\"flex gap-3 justify-end mt-6 pt-6 border-t border-gray-200 dark:border-gray-800\">\n                        <button\n                          type=\"button\"\n                          onClick=\x7b() => setShowForm(false)\x7d\n                          className=\"px-6 py-2.5 rounded-lg border border-gray-300 dark:border-gray-700 bg-white dark:bg-gray-800 text-gray-700 dark:text-gray-300 hover:bg-gray-50 dark:hover:bg-gray-750 transition-all text-sm font-medium\"\n                        >\n                          Cancel\n                        </button>\n                        <button\n                          type=\"submit\"\n                          className=\"px-6 py-2.5 rounded-lg bg-blue-600 hover:bg-blue-700 text-white transition-all text-sm font-medium shadow-sm hover:shadow-md\"\n                        >\n                          Add Tire\n                        </button>\n                      </div>\n                    </form>\n                  </motion.div>\n                </div>\n              </div>\n            </div>\n          </AnimatePresence>\n        )\x7d"
def c2mMsg : String := "Inventory page modal conversion completed!"
/-! ## convert-modals.py -/

/-- Step 1 of `convert_inventory_page` (lines 14-20): rewrite each of the
first ten lines that contains one of three known import lines
(`if ... in line: lines[i] = ... elif ...`). -/
def importFix (a a2 b b2 c c2 : List Char) (l : Line) : Line :=
  if chContains l a then a2
  else if chContains l b then b2
  else if chContains l c then c2
  else l

def invStep1 (lines : List Line) : List Line :=
  (lines.take 10).map
    (importFix imp1old.toList imp1new.toList imp2old.toList imp2new.toList
      imp3old.toList imp3new.toList) ++ lines.drop 10

/-- The locator of step 2 (lines 23-27): index of the first line
containing the `supabase` anchor. -/
def supaLocate (lines : List Line) : Option Nat :=
  findFirst (fun l => chContains l supaAnchor.toList) lines

/-- Step 2 (lines 23-27): insert the `modalRef` declaration before the
first line containing the `supabase` anchor (identical code appears in
`convert_customers_page`, lines 255-258). -/
def invStep2 (lines : List Line) : List Line :=
  match supaLocate lines with
  | some i => insertAt i modalRefStr.toList lines
  | none => lines

/-- Step 3 (lines 30-45): insert the scroll-lock `useEffect` after the
first line containing the dependency-array anchor. -/
def invStep3 (lines : List Line) : List Line :=
  match findFirst (fun l => chContains l invDepAnchor.toList) lines with
  | some i => insertAt (i + 1) scrollLock.toList lines
  | none => lines

/-- The form-region locator (lines 49-56, identical in
`convert_customers_page` lines 279-286): one pass in which `form_start`
is (re)set at every line containing the form marker, and `form_end` is
set to `i + 1` at the first line containing the end marker with
`i > form_start + 10`, at which point the loop breaks. -/
def locateFormGo : List Line → Nat → Option Nat → Option Nat × Option Nat
  | [], _, fs => (fs, none)
  | l :: rest, i, fs =>
    let fs2 := if chContains l formMarker.toList then some i else fs
    match fs2 with
    | some s =>
      if chContains l endMarker.toList = true ∧ s + 10 < i then (some s, some (i + 1))
      else locateFormGo rest (i + 1) fs2
    | none => locateFormGo rest (i + 1) none

def locateForm (lines : List Line) : Option Nat × Option Nat :=
  locateFormGo lines 0 none

/-- Step 4 (lines 58, 228-229): guarded by Python truthiness of both
bounds (`if form_start and form_end:`), replace
`lines[form_start:form_end]` by the one-element list holding the modal
form text. -/
def convertStep4 (modal : List Char) (lines : List Line) : List Line :=
  let r := locateForm lines
  if pyTruthy r.1 && pyTruthy r.2 then
    applyPatch lines (r.1.getD 0) (r.2.getD 0) [modal]
  else lines

/-- Content-level effect of `convert_inventory_page`: read into lines,
steps 1-4, write the concatenation back. -/
def invTransform (c : List Char) : List Char :=
  joinL (convertStep4 invModalForm.toList (invStep3 (invStep2 (invStep1 (splitAfterNl c)))))

def custStep1 (lines : List Line) : List Line :=
  (lines.take 10).map
    (importFix imp1old.toList imp1new.toList imp2old.toList imp2new.toList
      cimp3old.toList cimp3new.toList) ++ lines.drop 10

def custStep3 (lines : List Line) : List Line :=
  match findFirst (fun l => chContains l custDepAnchor.toList) lines with
  | some i => insertAt (i + 1) scrollLock.toList lines
  | none => lines

/-- Content-level effect of `convert_customers_page` (lines 238-426);
its step 2 is the same code as `invStep2`. -/
def custTransform (c : List Char) : List Char :=
  joinL (convertStep4 custModalForm.toList (custStep3 (invStep2 (custStep1 (splitAfterNl c)))))

/-! ## remove-inline-edit.py -/

/-- The brace-balance locator of remove-inline-edit.py lines 13-31, with
the anchor substring generalised to a parameter (the script instantiates
it with `editAnchor`). On an anchor line the section opens,
`edit_start := i` and the count is (re)set to 1; on each later line the
count is adjusted by `braceDelta`; a line containing `") : ("` while the
count is exactly 0 closes the section without recording an end; the end
is recorded at the first line on which the count is strictly below 0,
and the loop breaks there. -/
def findEditGo (anchor : List Char) :
    List Line → Nat → Bool → Option Nat → Int → Option Nat × Option Nat
  | [], _, _, es, _ => (es, none)
  | l :: rest, i, inSec, es, bc =>
    if chContains l anchor then findEditGo anchor rest (i + 1) true (some i) 1
    else if inSec then
      let bc2 := bc + braceDelta l
      if chContains l elseMarker.toList = true ∧ bc2 = 0 then
        findEditGo anchor rest (i + 1) false es bc2
      else if bc2 < 0 then (es, some i)
      else findEditGo anchor rest (i + 1) true es bc2
    else findEditGo anchor rest (i + 1) false es bc

def findEditRegionAnchored (anchor : List Char) (lines : List Line) :
    Option Nat × Option Nat :=
  findEditGo anchor lines 0 false none 0

def findEditRegion (lines : List Line) : Option Nat × Option Nat :=
  findEditRegionAnchored editAnchor.toList lines

/-- Lines 36-40: the first index in `range(edit_start, edit_end + 1)`
whose line contains the `/* Regular View */` marker. -/
def findRegularView (lines : List Line) (s e : Nat) : Option Nat :=
  (findFirst (fun l => chContains l rvMarker.toList)
    ((lines.drop s).take (e + 1 - s))).map (· + s)

/-- Lines 34-49: both guards use Python truthiness
(`if edit_start and edit_end:`, `if regular_view_line:`), and the
deletion is `del lines[edit_start : regular_view_line - 2]`. -/
def removeTransformLines (lines : List Line) : List Line :=
  let r := findEditRegion lines
  if pyTruthy r.1 && pyTruthy r.2 then
    match findRegularView lines (r.1.getD 0) (r.2.getD 0) with
    | some rv =>
      if pyTruthy (some rv) then pyDelSlice lines (r.1.getD 0) ((rv : Int) - 2)
      else lines
    | none => lines
  else lines

/-! ## update-inventory-edit.py -/

/-- The ten sequential `content.replace(old, new)` calls of
update-inventory-edit.py (lines 10-240), in source order. -/
def updateTransform (c : List Char) : List Char :=
  replaceAll u10old.toList u10new.toList
    (replaceAll u9old.toList u9new.toList
      (replaceAll u8old.toList u8new.toList
        (replaceAll u7old.toList u7new.toList
          (replaceAll u6old.toList u6new.toList
            (replaceAll u5old.toList u5new.toList
              (replaceAll u4old.toList u4new.toList
                (replaceAll u3old.toList u3new.toList
                  (replaceAll u2old.toList u2new.toList
                    (replaceAll u1old.toList u1new.toList c)))))))))

/-! ## convert-to-modal.py -/

/-- Substitution 1 (lines 28-29): `re.sub` with `count=1`, the pattern a
single literal group, the replacement `\1` followed by the scroll-lock
text — i.e. replace the leftmost occurrence of the literal by itself
followed by the scroll-lock text. The literal ends in `];` with no
closing parenthesis before the semicolon. -/
def c2mSub1 (c : List Char) : List Char :=
  replaceFirst c2mPat.toList (c2mPat.toList ++ scrollLock.toList) c

/-- The whole content transformation of convert-to-modal.py:
substitutions 1 (lines 28-29), 2 (line 95), 3 (line 103) and 4
(line 151, the pattern with one lazy `.*?` gap) in source order. -/
def c2mTransform (c : List Char) : List Char :=
  subLazyAll btnP1.toList btnP2.toList newButtons.toList
    (replaceAll oldFormTagLit.toList newFormTag.toList
      (replaceAll oldFormLit.toList newForm.toList (c2mSub1 c)))

/-! ## runs and the file system -/

/-- Observable outcome of one script run on already-read file contents:
the writes it performs (path and bytes), the messages it prints, and its
exit status. Every script is straight-line code ending in an
unconditional `print`; none calls `sys.exit`, so a run that can read its
file terminates with status 0. -/
structure RunResult where
  writes : List (String × List Char)
  msgs : List String
  exitCode : Nat
deriving DecidableEq

def removeRun (c : List Char) : RunResult :=
  { writes := [(invPath, joinL (removeTransformLines (splitAfterNl c)))],
    msgs := [remMsg], exitCode := 0 }

def convertModalsRun (inv cust : List Char) : RunResult :=
  { writes := [(invPath, invTransform inv), (custPath, custTransform cust)],
    msgs := [invOkMsg, custOkMsg, allOkMsg], exitCode := 0 }

def updateRun (c : List Char) : RunResult :=
  { writes := [(invPath, updateTransform c)], msgs := [updMsg], exitCode := 0 }

def c2mRun (c : List Char) : RunResult :=
  { writes := [(invPath, c2mTransform c)], msgs := [c2mMsg], exitCode := 0 }

/-- The file system as a finite map from path to decoded content. -/
abbrev FS := List (String × List Char)

def fsRead : FS → String → Option (List Char)
  | [], _ => none
  | e :: t, p => if e.1 = p then some e.2 else fsRead t p

/-- Rewriting an existing file in place (`open(path, 'w')` on a path the
script has just read): replace the content stored at that path. -/
def fsWrite : FS → String → List Char → FS
  | [], _, _ => []
  | e :: t, p, c => (if e.1 = p then (p, c) else e) :: fsWrite t p c

/-- One read-transform-write cycle on one file; `none` when the read
fails (the script would raise and stop before writing anything). -/
def rewriteAt (p : String) (f : List Char → List Char) (fs : FS) : Option FS :=
  match fsRead fs p with
  | none => none
  | some c => some (fsWrite fs p (f c))

/-- The `__main__` of convert-modals.py (lines 429-432): rewrite the
inventory page, then the customers page. -/
def convertModalsFS (fs : FS) : Option FS :=
  (rewriteAt invPath invTransform fs).bind (rewriteAt custPath custTransform)
/-! ## General lemmas about the embedded primitives -/

theorem joinL_splitAfterNl : ∀ c : List Char, joinL (splitAfterNl c) = c := by
  intro c
  induction c with
  | nil => rfl
  | cons a t ih =>
    by_cases ha : a = nlChar
    · simp only [splitAfterNl, if_pos ha, joinL, List.flatten_cons] at ih ⊢
      simp [ih]
    · cases hs : splitAfterNl t with
      | nil =>
        rw [hs] at ih
        simp only [joinL, List.flatten_nil] at ih
        simp [splitAfterNl, ha, hs, joinL, ← ih]
      | cons l ls =>
        rw [hs] at ih
        simp only [joinL, List.flatten_cons] at ih
        simp [splitAfterNl, ha, hs, joinL, ih]

theorem findFirst_first (p : Line → Bool) :
    ∀ (ls : List Line) (i : Nat), findFirst p ls = some i →
      p (ls.getD i []) = true ∧ ∀ j, j < i → p (ls.getD j []) = false := by
  intro ls
  induction ls with
  | nil => intro i h; simp [findFirst] at h
  | cons hd tl ih =>
    intro i h
    by_cases hp : p hd = true
    · simp only [findFirst, if_pos hp] at h
      obtain rfl : (0 : Nat) = i := Option.some.inj h
      exact ⟨by simpa using hp, fun j hj => absurd hj (by omega)⟩
    · simp only [findFirst, if_neg hp, Option.map_eq_some'] at h
      obtain ⟨k, hk, rfl⟩ := h
      obtain ⟨h1, h2⟩ := ih k hk
      refine ⟨by simpa using h1, ?_⟩
      intro j hj
      cases j with
      | zero => simp only [List.getD_cons_zero]; exact Bool.eq_false_iff.mpr hp
      | succ j2 => simpa using h2 j2 (by omega)

theorem replaceFirst_of_not_contains (pat repl : List Char) :
    ∀ s : List Char, chContains s pat = false → replaceFirst pat repl s = s := by
  intro s
  induction s with
  | nil =>
    intro h
    simp only [chContains] at h
    simp [replaceFirst, h]
  | cons c t ih =>
    intro h
    simp only [chContains, Bool.or_eq_false_iff] at h
    simp [replaceFirst, h.1, ih h.2]

theorem fsRead_fsWrite_ne (p q : String) (c : List Char) (h : q ≠ p) :
    ∀ fs : FS, fsRead (fsWrite fs p c) q = fsRead fs q := by
  intro fs
  induction fs with
  | nil => rfl
  | cons e t ih =>
    simp only [fsWrite, fsRead]
    by_cases hk : e.1 = p
    · rw [if_pos hk]
      have hkq : ¬ (e.1 = q) := fun hh => h (hh ▸ hk)
      simp only [fsRead]
      rw [if_neg (show ¬ ((p, c).1 = q) from fun hh => h hh.symm), if_neg hkq]
      exact ih
    · rw [if_neg hk]
      by_cases hq2 : e.1 = q
      · rw [if_pos hq2, if_pos hq2]
      · rw [if_neg hq2, if_neg hq2]
        exact ih

theorem rewriteAt_frame (p : String) (f : List Char → List Char) (fs fs2 : FS) (q : String)
    (h : rewriteAt p f fs = some fs2) (hq : q ≠ p) : fsRead fs2 q = fsRead fs q := by
  cases hr : fsRead fs p with
  | none => simp [rewriteAt, hr] at h
  | some c =>
    simp only [rewriteAt, hr, Option.some.injEq] at h
    subst h
    exact fsRead_fsWrite_ne p q (f c) hq fs
/-! ## Concrete fixtures used by the claim theorems and witnesses -/

def scenarioBuf : List Line :=
  ["a \x7b\n".toList, "  b \x7b\n".toList, "  \x7d\n".toList, "\x7d\n".toList, "tail\n".toList]

def scenarioBufExt : List Line :=
  ["a \x7b\n".toList, "  b \x7b\n".toList, "  \x7d\n".toList, "\x7d\n".toList, "\x7d\n".toList,
    "tail\n".toList]

def scenarioAnchor : List Char := "a \x7b".toList

def dupMarkerBuf : List Line :=
  [(formMarker ++ "\n").toList, (formMarker ++ "\n").toList] ++
    List.replicate 10 ("x\n".toList) ++ [(endMarker ++ "\n").toList]

def singleMarkerBuf : List Line :=
  [(formMarker ++ "\n").toList] ++ List.replicate 10 ("x\n".toList) ++
    [(endMarker ++ "\n").toList]

def supaBuf : List Line := [(supaAnchor ++ "\n").toList]

def zeroStartEditBuf : List Line := [(editAnchor ++ "\n").toList, "\x7d\x7d\n".toList]

def fs0 : FS :=
  [(invPath, (supaAnchor ++ "\n").toList), (custPath, (supaAnchor ++ "\n").toList)]

def fs1c : FS :=
  [(invPath, (modalRefStr ++ supaAnchor ++ "\n").toList),
    (custPath, (supaAnchor ++ "\n").toList)]

def fs2c : FS :=
  [(invPath, (modalRefStr ++ supaAnchor ++ "\n").toList),
    (custPath, (modalRefStr ++ supaAnchor ++ "\n").toList)]

/-! ## The claims -/

/-- C1: on inventory content consisting of just the `supabase` line, the
form-section rule matches nothing, yet `convert_inventory_page` still
performs its write, and with changed bytes; and on content
`"hello\n"` none of remove-inline-edit.py's rules match, yet that script
also performs its write (of the original bytes). This contradicts the
claim that an unmatched locator rule aborts the rewrite with
`PatchNotFound` and no write is performed. -/
theorem unmatched_rule_still_writes :
    locateForm (invStep3 (invStep2 (invStep1 (splitAfterNl (supaAnchor ++ "\n").toList))))
        = (none, none) ∧
    (convertModalsRun ((supaAnchor ++ "\n").toList) ((supaAnchor ++ "\n").toList)).writes
        = [(invPath, (modalRefStr ++ supaAnchor ++ "\n").toList),
           (custPath, (modalRefStr ++ supaAnchor ++ "\n").toList)] ∧
    (modalRefStr ++ supaAnchor ++ "\n").toList ≠ (supaAnchor ++ "\n").toList ∧
    findEditRegion (splitAfterNl "hello\n".toList) = (none, none) ∧
    (removeRun "hello\n".toList).writes = [(invPath, "hello\n".toList)] := by
  decide

/-- C2, counterexample: on the buffer `["a {\n", "  b {\n", "  }\n",
"}\n", "tail\n"]` with anchor `"a {"`, the brace-balance locator of
remove-inline-edit.py does not return closing boundary 3: the running
count reaches exactly 0 on that line and the code only stops strictly
below 0, so no closing boundary is found at all. -/
theorem brace_balance_scenario_counterexample :
    findEditRegionAnchored scenarioAnchor scenarioBuf = (some 0, none) ∧
    ((some 0, none) : Option Nat × Option Nat) ≠ (some 0, some 3) := by
  decide

/-- C2, amended: the closing boundary is the first line after the anchor
at which the running count (initialised to 1 at the anchor line) goes
strictly below zero — returning to zero does not stop the scan. On the
claim's buffer the count never goes below zero and no boundary is found
(neither 3 nor 2); appending one further `"}\n"` line makes the count
first strictly negative at index 4, which is then returned. -/
theorem brace_balance_strictly_below_zero :
    findEditRegionAnchored scenarioAnchor scenarioBuf = (some 0, none) ∧
    findEditRegionAnchored scenarioAnchor scenarioBufExt = (some 0, some 4) := by
  decide

/-- C3, counterexample: applying the modalRef insertion patch of
convert-modals.py (step 2) to a buffer holding the `supabase` anchor
line changes the buffer, yet re-running that patch's locator on the
result still finds the anchor (now at index 1) instead of returning
"not found". -/
theorem insert_patch_still_locatable_counterexample :
    invStep2 supaBuf = [modalRefStr.toList, (supaAnchor ++ "\n").toList] ∧
    invStep2 supaBuf ≠ supaBuf ∧
    supaLocate (invStep2 supaBuf) = some 1 := by
  decide

/-- C3, amended: a replacement patch whose replacement no longer
contains the old pattern is not re-locatable after application (the
`startEditingTire` rewrite of update-inventory-edit.py); but the
insertion patches leave their anchor line in place, so after application
their locator still succeeds and a second run inserts a second copy. -/
theorem relocate_after_apply_mixed :
    chContains (replaceAll u1old.toList u1new.toList u1old.toList) u1old.toList = false ∧
    supaLocate (invStep2 supaBuf) = some 1 ∧
    invStep2 (invStep2 supaBuf)
      = [modalRefStr.toList, modalRefStr.toList, (supaAnchor ++ "\n").toList] := by
  decide

/-- C4, counterexample: with the form marker on both line 0 and line 1
and the end marker at line 12, the form-region locator of
convert-modals.py returns start bound 1 — the most recent marker line up
to the point where the end is found, not the first line containing the
substring: the first bound moved. -/
theorem form_locator_start_moves_counterexample :
    chContains (dupMarkerBuf.getD 0 []) formMarker.toList = true ∧
    locateForm dupMarkerBuf = (some 1, some 13) ∧
    ((some 1 : Option Nat) ≠ some 0) := by
  decide

/-- C4, amended: the single-bound locators, which break at the first
match, do return the index of the first line satisfying their test (and
everything before it fails the test); the form-region locator runs one
combined pass in which the start bound is re-set at every marker line
and the end bound is the first line containing the end substring more
than 10 lines past the current start bound (returned as index + 1) — so
the start bound can move to a later marker occurrence before the end is
found. -/
theorem locator_first_match_and_moving_start :
    (∀ (p : Line → Bool) (ls : List Line) (i : Nat), findFirst p ls = some i →
        p (ls.getD i []) = true ∧ ∀ j, j < i → p (ls.getD j []) = false) ∧
    locateForm singleMarkerBuf = (some 0, some 12) ∧
    locateForm dupMarkerBuf = (some 1, some 13) :=
  ⟨fun p => findFirst_first p, by decide, by decide⟩

/-- C4 witness: the first-match property applied to the `supabase`
locator at a concrete buffer. -/
theorem locator_first_match_and_moving_start_witness :
    chContains (supaBuf.getD 0 []) supaAnchor.toList = true :=
  (locator_first_match_and_moving_start.1 (fun l => chContains l supaAnchor.toList)
    supaBuf 0 (by decide)).1

/-- C5: every script run (modelled on arbitrary readable contents)
prints its fixed success message list and terminates with exit status 0,
regardless of whether any patch rule matched; no exit code distinguishes
complete application from incomplete or failed application. -/
theorem runs_always_print_success_and_exit_zero :
    ∀ a b c d e : List Char,
      (removeRun a).exitCode = 0 ∧ (removeRun a).msgs = [remMsg] ∧
      (convertModalsRun b c).exitCode = 0 ∧
      (convertModalsRun b c).msgs = [invOkMsg, custOkMsg, allOkMsg] ∧
      (updateRun d).exitCode = 0 ∧ (updateRun d).msgs = [updMsg] ∧
      (c2mRun e).exitCode = 0 ∧ (c2mRun e).msgs = [c2mMsg] := by
  intro a b c d e
  exact ⟨rfl, rfl, rfl, rfl, rfl, rfl, rfl, rfl⟩

/-- C6, counterexample: one run of convert-modals.py on a file system in
which both target pages hold the `supabase` line modifies the inventory
page and the customers page — two files changed by a single run, so the
run does not mutate exactly one file. -/
theorem convert_modals_mutates_two_files :
    (convertModalsFS fs0).bind (fun g => fsRead g invPath)
        = some ((modalRefStr ++ supaAnchor ++ "\n").toList) ∧
    (convertModalsFS fs0).bind (fun g => fsRead g custPath)
        = some ((modalRefStr ++ supaAnchor ++ "\n").toList) ∧
    (modalRefStr ++ supaAnchor ++ "\n").toList ≠ (supaAnchor ++ "\n").toList ∧
    fsRead fs0 invPath = some ((supaAnchor ++ "\n").toList) ∧
    fsRead fs0 custPath = some ((supaAnchor ++ "\n").toList) := by
  decide

/-- C6, amended: each single rewrite call reads one file fully into
memory, rewrites only that path and leaves every other path unchanged;
a run of convert-modals.py performs two such rewrites, so one run
modifies up to two files (the inventory page and the customers page)
and no others. -/
theorem rewrite_frame_per_file :
    (∀ (fs fs2 : FS) (q : String), rewriteAt invPath invTransform fs = some fs2 →
        q ≠ invPath → fsRead fs2 q = fsRead fs q) ∧
    (∀ (fs fs2 : FS) (q : String), rewriteAt custPath custTransform fs = some fs2 →
        q ≠ custPath → fsRead fs2 q = fsRead fs q) ∧
    (∀ (fs fs2 : FS) (q : String), convertModalsFS fs = some fs2 →
        q ≠ invPath → q ≠ custPath → fsRead fs2 q = fsRead fs q) := by
  refine ⟨fun fs fs2 q h hq => rewriteAt_frame _ _ _ _ _ h hq,
          fun fs fs2 q h hq => rewriteAt_frame _ _ _ _ _ h hq, ?_⟩
  intro fs fs2 q h h1 h2
  cases hr : rewriteAt invPath invTransform fs with
  | none => simp [convertModalsFS, hr] at h
  | some fsm =>
    simp only [convertModalsFS, hr, Option.some_bind] at h
    calc fsRead fs2 q = fsRead fsm q := rewriteAt_frame _ _ _ _ _ h h2
      _ = fsRead fs q := rewriteAt_frame _ _ _ _ _ hr h1

/-- C6 witness: the frame conjuncts applied at the concrete file
system. -/
theorem rewrite_frame_per_file_witness :
    fsRead fs1c custPath = fsRead fs0 custPath ∧
    fsRead fs2c invPath = fsRead fs1c invPath ∧
    fsRead fs2c "D:/other" = fsRead fs0 "D:/other" :=
  ⟨rewrite_frame_per_file.1 fs0 fs1c custPath (by decide) (by decide),
   rewrite_frame_per_file.2.1 fs1c fs2c invPath (by decide) (by decide),
   rewrite_frame_per_file.2.2 fs0 fs2c "D:/other" (by decide) (by decide) (by decide)⟩

/-- C7: patch application is a pure function of its inputs — identical
buffer, region and replacement always give identical outputs, both for
the slice-assignment applier and for `str.replace`; there is no hidden
state for them to depend on. -/
theorem patch_application_pure :
    (∀ (b1 b2 : List Line) (s1 s2 e1 e2 : Nat) (r1 r2 : List Line),
        b1 = b2 ∧ s1 = s2 ∧ e1 = e2 ∧ r1 = r2 →
          applyPatch b1 s1 e1 r1 = applyPatch b2 s2 e2 r2) ∧
    (∀ p1 p2 r1 r2 c1 c2 : List Char,
        p1 = p2 ∧ r1 = r2 ∧ c1 = c2 → replaceAll p1 r1 c1 = replaceAll p2 r2 c2) := by
  constructor
  · rintro b1 b2 s1 s2 e1 e2 r1 r2 ⟨rfl, rfl, rfl, rfl⟩
    rfl
  · rintro p1 p2 r1 r2 c1 c2 ⟨rfl, rfl, rfl⟩
    rfl

/-- C7 witness: applied at a concrete buffer, region and replacement. -/
theorem patch_application_pure_witness :
    applyPatch supaBuf 0 1 [modalRefStr.toList] = applyPatch supaBuf 0 1 [modalRefStr.toList] ∧
    replaceAll u1old.toList u1new.toList u1old.toList
      = replaceAll u1old.toList u1new.toList u1old.toList :=
  ⟨patch_application_pure.1 supaBuf supaBuf 0 0 1 1 [modalRefStr.toList] [modalRefStr.toList]
      ⟨rfl, rfl, rfl, rfl⟩,
   patch_application_pure.2 u1old.toList u1old.toList u1new.toList u1new.toList
      u1old.toList u1old.toList ⟨rfl, rfl, rfl⟩⟩

/-- The file rewriter with an empty patch sequence, at the level of file
bytes on the platform the scripts target: text-mode read (universal-
newline decode), `readlines` (convert-modals.py lines 9-11), zero
patches, `writelines` and text-mode write (`\n` to `\r\n`, lines
231-233). -/
def rewriteNoPatchesBytes (b : List Char) : List Char :=
  encodeNewlinesCRLF (joinL (splitAfterNl (decodeNewlines b)))

/-- Bytes already in the native newline encoding of their decoded text:
two CRLF-terminated lines. -/
def crlfContent : List Char := "a\x0d\nb\x0d\n".toList

/-- C8, counterexample: an empty-patch rewrite does not leave every file
byte-for-byte unchanged — the bare-LF content `"a\n"` is written back
as `"a\r\n"` on the platform the scripts target, and the content
`"a\rb"`, holding a lone carriage return, is altered by the
universal-newline read alone. -/
theorem empty_rewrite_alters_bytes_counterexample :
    rewriteNoPatchesBytes "a\n".toList ≠ "a\n".toList ∧
    rewriteNoPatchesBytes "a\n".toList = "a\x0d\n".toList ∧
    rewriteNoPatchesBytes "a\x0db".toList ≠ "a\x0db".toList := by
  decide

/-- C8, amended: with zero patches, `readlines` followed by `writelines`
reproduces the decoded text exactly, for every content; the bytes
written are therefore the re-encoding of the decoded bytes, so the file
is left byte-for-byte unchanged precisely when its bytes are already
the native newline encoding of their own decoded text — which fails for
bare-LF or lone-carriage-return contents, re-normalised instead. -/
theorem empty_patch_roundtrip_decoded_text :
    (∀ c : List Char, joinL (splitAfterNl c) = c) ∧
    (∀ b : List Char, rewriteNoPatchesBytes b = encodeNewlinesCRLF (decodeNewlines b)) ∧
    (∀ b : List Char, b = encodeNewlinesCRLF (decodeNewlines b) →
        rewriteNoPatchesBytes b = b) := by
  refine ⟨joinL_splitAfterNl, ?_, ?_⟩
  · intro b
    unfold rewriteNoPatchesBytes
    rw [joinL_splitAfterNl]
  · intro b h
    unfold rewriteNoPatchesBytes
    rw [joinL_splitAfterNl, ← h]

/-- C8 witness: a CRLF-normal content satisfies the hypothesis and
round-trips byte-for-byte. -/
theorem empty_patch_roundtrip_decoded_text_witness :
    rewriteNoPatchesBytes crlfContent = crlfContent :=
  empty_patch_roundtrip_decoded_text.2.2 crlfContent (by decide)

/-- C9: when the located start index is 0, the Python truthiness guards
`if form_start and form_end` (convert-modals.py line 58) and
`if edit_start and edit_end` (remove-inline-edit.py line 34) treat the
start bound as not found, so the form replacement / inline-edit deletion
is skipped even though both bounds were located. -/
theorem zero_index_truthiness_guard :
    (∀ (m : List Char) (b : List Line) (e : Nat),
        locateForm b = (some 0, some e) → convertStep4 m b = b) ∧
    (∀ (b : List Line) (e : Nat),
        findEditRegion b = (some 0, some e) → removeTransformLines b = b) := by
  constructor
  · intro m b e h
    simp [convertStep4, h, pyTruthy]
  · intro b e h
    simp [removeTransformLines, h, pyTruthy]

/-- C9 witness: concrete buffers whose regions are located with start
index 0 and which are left unmodified. -/
theorem zero_index_truthiness_guard_witness :
    convertStep4 invModalForm.toList singleMarkerBuf = singleMarkerBuf ∧
    removeTransformLines zeroStartEditBuf = zeroStartEditBuf :=
  ⟨zero_index_truthiness_guard.1 invModalForm.toList singleMarkerBuf 12 (by decide),
   zero_index_truthiness_guard.2 zeroStartEditBuf 1 (by decide)⟩

/-- C10: the scroll-lock substitution of convert-to-modal.py modifies a
buffer only if the buffer contains the literal
`  }, [searchTerm, stockFilter, inventory];` (no closing parenthesis
before the semicolon): whenever that literal is absent — in particular
whenever the dependency-array line instead reads `...inventory]);` —
the first substitution returns the buffer unchanged and the scroll-lock
effect is never inserted. -/
theorem scroll_lock_requires_exact_pattern :
    ∀ c : List Char, chContains c c2mPat.toList = false → c2mSub1 c = c := by
  intro c h
  exact replaceFirst_of_not_contains _ _ c h

/-- C10 witness: the real dependency-array line (which has the closing
parenthesis) does not contain the pattern and is left unchanged. -/
theorem scroll_lock_requires_exact_pattern_witness :
    chContains ((invDepAnchor ++ "\n").toList) c2mPat.toList = false ∧
    c2mSub1 ((invDepAnchor ++ "\n").toList) = (invDepAnchor ++ "\n").toList :=
  ⟨by decide, scroll_lock_requires_exact_pattern ((invDepAnchor ++ "\n").toList) (by decide)⟩

end TireOps
